import Mathlib

/-!
Verification of the auction notification bot in `secure_discordbot.py`.

Strings of the Python source are modelled as `List Char`; `str.lower` is
modelled by the ASCII case fold `Char.toLower` (the characters occurring in
the patterns of the source are ASCII letters, digits, punctuation and
Japanese characters, and the latter are fixed points of case folding both
in Python and in this model), `str.strip` by removing the leading and
trailing whitespace characters, and the substring test `a in b` by
`containsSub`.
-/

namespace DiscordBot

/-- A Python string, modelled as its list of characters. -/
abbrev Str := List Char

/-- Python `s.lower()`, ASCII case fold applied characterwise. -/
def pyLower (s : Str) : Str := s.map Char.toLower

/-- The whitespace test used to model Python `str.strip()`. -/
def isPySpace (c : Char) : Bool := c.isWhitespace

/-- Python `s.strip()`: remove leading and trailing whitespace. -/
def pyStrip (s : Str) : Str := (s.dropWhile isPySpace).rdropWhile isPySpace

/-- Python `needle in hay` substring test. -/
def containsSub (needle : Str) : Str → Bool
  | [] => needle.isPrefixOf []
  | c :: rest => needle.isPrefixOf (c :: rest) || containsSub needle rest

/-- Python `s.replace(pat, repl)` for a nonempty `pat`: replace every
non-overlapping occurrence, scanning left to right.  (For `pat = []` the
function returns `s` unchanged; the source only calls `replace` with the
nonempty patterns `"yahoo_"` and `"{auction_id}"`.) -/
def pyReplace (pat repl : Str) : Str → Str
  | [] => []
  | c :: rest =>
    if pat ≠ [] ∧ pat.isPrefixOf (c :: rest) then
      repl ++ pyReplace pat repl (rest.drop (pat.length - 1))
    else
      c :: pyReplace pat repl rest
termination_by s => s.length
decreasing_by
  · simp only [List.length_drop, List.length_cons]
    omega
  · simp only [List.length_cons]
    omega

/-! ## Spam/Quality filter — `UserPreferenceLearner.is_likely_spam` -/

/-- The literal dict `LUXURY_SPAM_PATTERNS` of `is_likely_spam`
(secure_discordbot.py lines 587-619), as an association list in the
insertion order of the source. -/
def LUXURY_SPAM_PATTERNS : List (String × List String) :=
  [("Celine",
    ["レディース", "women", "femme", "ladies",
     "wallet", "財布", "purse", "bag", "バッグ", "ポーチ", "pouch",
     "earring", "pierce", "ピアス", "イヤリング", "ring", "指輪",
     "necklace", "ネックレス", "bracelet", "ブレスレット",
     "perfume", "香水", "fragrance", "cologne", "cosmetic", "化粧品",
     "keychain", "キーホルダー", "sticker", "ステッカー"]),
   ("Bottega Veneta",
    ["wallet", "財布", "purse", "clutch", "クラッチ",
     "bag", "バッグ", "handbag", "ハンドバッグ", "tote", "トート",
     "pouch", "ポーチ", "case", "ケース",
     "earring", "pierce", "ピアス", "イヤリング", "ring", "指輪",
     "necklace", "ネックレス", "bracelet", "ブレスレット",
     "heel", "ヒール", "pump", "パンプ", "sandal", "サンダル",
     "dress", "ドレス", "skirt", "スカート",
     "perfume", "香水", "fragrance"]),
   ("Undercover",
    ["cb400sf", "cb1000sf", "cb1300sf", "cb400sb", "cbx400f", "cb750f",
     "vtr250", "ジェイド", "ホーネット", "undercowl", "アンダーカウル",
     "mr2", "bmw", "エンジン", "motorcycle", "engine", "5upj",
     "アンダーカバー", "under cover", "フロント", "リア"]),
   ("Rick Owens",
    ["ifsixwasnine", "share spirit", "kmrii", "14th addiction", "goa",
     "civarize", "fuga", "tornado mart", "l.g.b", "midas", "ekam"]),
   ("Chrome Hearts",
    ["luxe", "luxe/r", "luxe r", "ラグジュ", "LUXE/R", "doll bear"])]

/-- The deny patterns for a brand: `LUXURY_SPAM_PATTERNS[brand]` when
`brand in LUXURY_SPAM_PATTERNS`, and `[]` otherwise (in which case the
deny loop of the source is simply not entered). -/
def denyPatterns (brand : String) : List String :=
  match LUXURY_SPAM_PATTERNS.find? (fun p => p.1 = brand) with
  | some p => p.2
  | none => []

/-- The literal list `ARCHIVE_KEYWORDS` of `is_likely_spam`
(secure_discordbot.py lines 627-631). -/
def ARCHIVE_KEYWORDS : List String :=
  ["archive", "アーカイブ", "vintage", "ヴィンテージ", "rare", "レア",
   "runway", "ランウェイ", "collection", "コレクション", "fw", "ss",
   "mainline", "メインライン", "homme", "オム"]

/-- The literal list `generic_spam` of `is_likely_spam`
(secure_discordbot.py line 638). -/
def generic_spam : List String :=
  ["motorcycle", "engine", "server", "perfume", "香水"]

/-- Model of `UserPreferenceLearner.is_likely_spam(title, brand)`
(secure_discordbot.py lines 584-644).  Brand deny patterns are checked
first (lowercased, substring of the lowercased title) and short-circuit to
`true`; then the archive allow keywords short-circuit to `false`; then the
generic deny set yields `true`; otherwise `false`. -/
def is_likely_spam (title : Str) (brand : String) : Bool :=
  let title_lower := pyLower title
  if (denyPatterns brand).any (fun p => containsSub (pyLower p.toList) title_lower) then
    true
  else if ARCHIVE_KEYWORDS.any (fun k => containsSub (pyLower k.toList) title_lower) then
    false
  else if generic_spam.any (fun p => containsSub p.toList title_lower) then
    true
  else
    false

/-! ## Proxy URLs — `SUPPORTED_PROXIES` and `generate_proxy_url` -/

/-- The keys of the literal dict `SUPPORTED_PROXIES`
(secure_discordbot.py lines 306-325). -/
def SUPPORTED_PROXIES_keys : List String := ["zenmarket", "buyee", "yahoo_japan"]

/-- The `url_template` field of `SUPPORTED_PROXIES[key]`
(secure_discordbot.py lines 306-325); the argument is assumed to be one of
the keys (the source only indexes the dict with a key it has checked). -/
def url_template (key : String) : String :=
  if key = "buyee" then "https://buyee.jp/item/yahoo/auction/{auction_id}"
  else if key = "yahoo_japan" then "https://page.auctions.yahoo.co.jp/jp/auction/{auction_id}"
  else "https://zenmarket.jp/en/auction.aspx?itemCode={auction_id}"

/-- Model of `generate_proxy_url(auction_id, proxy_service)`
(secure_discordbot.py lines 648-654): unknown services fall back to
`"zenmarket"`, the `"yahoo_"` occurrences are removed from the auction id
(Python `str.replace`), and the result is substituted for the
`{auction_id}` placeholder of the template (Python `str.format`). -/
def generate_proxy_url (auction_id : Str) (proxy_service : String) : Str :=
  let ps := if proxy_service ∈ SUPPORTED_PROXIES_keys then proxy_service
            else "zenmarket"
  let clean_auction_id := pyReplace "yahoo_".toList [] auction_id
  pyReplace "{auction_id}".toList clean_auction_id (url_template ps).toList

/-! ## Size normalization — `SizeAlertSystem.normalize_size` -/

/-- The literal dict `size_mappings` of `SizeAlertSystem.__init__`
(secure_discordbot.py lines 148-154), in insertion order. -/
def size_mappings : List (String × List String) :=
  [("s", ["s", "small", "44", "46", "サイズs"]),
   ("m", ["m", "medium", "48", "50", "サイズm"]),
   ("l", ["l", "large", "52", "サイズl"]),
   ("xl", ["xl", "x-large", "54", "サイズxl"]),
   ("xxl", ["xxl", "xx-large", "56", "サイズxxl"])]

/-- Model of `SizeAlertSystem.normalize_size(size_str)`
(secure_discordbot.py lines 156-164): lowercase and strip, return the
canonical code of the first variation list containing the result, else
return the lowercased stripped string unchanged. -/
def normalize_size (size_str : Str) : Str :=
  let size_lower := pyStrip (pyLower size_str)
  match size_mappings.find? (fun p => p.2.any (fun v => v.toList = size_lower)) with
  | some p => p.1.toList
  | none => size_lower

/-! ## Tier delay — `PremiumTierManager.should_delay_listing` -/

/-- A Python value that is either a `bool` or a number, the two result
shapes of `should_delay_listing`. -/
inductive PyNum where
  | bool (b : Bool)
  | num (q : ℚ)
deriving DecidableEq

/-- The numeric value Python gives a `PyNum` under `==` comparison with a
number (`False == 0` and `True == 1` hold in Python). -/
def PyNum.asQ : PyNum → ℚ
  | .bool b => if b then 1 else 0
  | .num q => q

/-- The `delay_multiplier` of `tier_features["free"]`
(secure_discordbot.py line 2007), in hours. -/
def free_delay_multiplier : ℚ := 8

/-- The free-tier base delay in seconds: 8 hours. -/
def FREE_BASE_SECONDS : ℚ := free_delay_multiplier * 3600

/-- Model of `PremiumTierManager.should_delay_listing(user_tier, listing_priority)`
(secure_discordbot.py lines 2140-2152): `False` for the pro and elite
tiers, otherwise the free-tier delay in seconds, the 8-hour base scaled by
0.5 when priority is at least 100 and by 0.75 when priority is at least
70. -/
def should_delay_listing (user_tier : String) (listing_priority : ℚ) : PyNum :=
  if user_tier = "pro" ∨ user_tier = "elite" then
    .bool false
  else
    let delay_hours := free_delay_multiplier
    let delay_hours :=
      if listing_priority ≥ 100 then delay_hours * (1/2)
      else if listing_priority ≥ 70 then delay_hours * (3/4)
      else delay_hours
    .num (delay_hours * 3600)

/-! ## Batch buffer — `process_batch_buffer`, `webhook`,
`send_individual_listings_with_rate_limit` -/

/-- Constant `BATCH_SIZE` (secure_discordbot.py line 302). -/
def BATCH_SIZE : ℕ := 4

/-- Constant `BATCH_TIMEOUT` (secure_discordbot.py line 303), in seconds. -/
def BATCH_TIMEOUT : ℕ := 30

/-- The module state read and written by `process_batch_buffer` and
`webhook`: the pending `batch_buffer` (FIFO) and `last_batch_time`.  Time
is modelled in whole seconds. -/
structure BatchState (α : Type) where
  buffer : List α
  last_batch_time : Option ℕ
deriving DecidableEq

/-- Model of `time_since_batch` of the `process_batch_buffer` loop
(secure_discordbot.py lines 914-916): 0 when no flush has happened yet,
else the seconds since the last flush. -/
def timeSince (last : Option ℕ) (now : ℕ) : ℕ :=
  match last with
  | some t => now - t
  | none => 0

/-- One wake-up of the `process_batch_buffer` loop
(secure_discordbot.py lines 902-930) at time `now`: if the buffer is
non-empty and either it holds at least `BATCH_SIZE` items or at least
`BATCH_TIMEOUT` seconds have passed since the last flush, remove the first
`BATCH_SIZE` items from the buffer head, record the flush time, and emit
the removed group; otherwise change nothing. -/
def batchTick {α : Type} (st : BatchState α) (now : ℕ) :
    BatchState α × Option (List α) :=
  if st.buffer.isEmpty then (st, none)
  else if BATCH_SIZE ≤ st.buffer.length ∨
      BATCH_TIMEOUT ≤ timeSince st.last_batch_time now then
    (⟨st.buffer.drop BATCH_SIZE, some now⟩, some (st.buffer.take BATCH_SIZE))
  else
    (st, none)

/-- Run `batchTick` at each time of `times` in order, collecting the
emitted flush groups. -/
def runTicks {α : Type} (st : BatchState α) : List ℕ → BatchState α × List (List α)
  | [] => (st, [])
  | t :: ts =>
    match batchTick st t with
    | (st1, none) => runTicks st1 ts
    | (st1, some g) =>
      let r := runTicks st1 ts
      (r.1, g :: r.2)

/-- The buffer append of the `webhook` handler
(secure_discordbot.py lines 1914-1917): append the submission and, on the
empty-to-non-empty transition (`len(batch_buffer) == 1`), set
`last_batch_time` to the current time. -/
def webhookSubmit {α : Type} (st : BatchState α) (x : α) (now : ℕ) : BatchState α :=
  let buffer := st.buffer ++ [x]
  ⟨buffer, if buffer.length = 1 then some now else st.last_batch_time⟩

/-- The pacing of `send_individual_listings_with_rate_limit`
(secure_discordbot.py lines 1011-1024): each item of the batch is handed
to the per-listing fan-out in order, with `asyncio.sleep(3)` between
consecutive items (no sleep after the last one).  The fan-out call itself
is abstracted away; the result pairs each item with the time at which its
delivery starts. -/
def sendWithRateLimit {α : Type} (t : ℕ) : List α → List (α × ℕ)
  | [] => []
  | [x] => [(x, t)]
  | x :: y :: rest => (x, t) :: sendWithRateLimit (t + 3) (y :: rest)

/-! ## Message footer and reaction parse — `create_listing_embed`,
`on_reaction_add` -/

/-- The word-character test of the regex class `\w`, restricted to ASCII
(`[A-Za-z0-9_]`); auction ids handled by the counterexample and the
theorem below consist of such characters only, where the Python Unicode
`\w` agrees with this model. -/
def isWordChar (c : Char) : Bool := c.isAlphanum || c = '_'

/-- The footer text `create_listing_embed` stores in a listing embed
(secure_discordbot.py line 2258). -/
def footerText (auction_id : Str) : Str :=
  "ID: ".toList ++ auction_id ++ " | !setup for proxy config | React 👍/👎 to train".toList

/-- Match the regex `ID: (\w+)` at the start of `s`, returning the capture
group. -/
def matchIdAt (s : Str) : Option Str :=
  if "ID: ".toList.isPrefixOf s then
    let run := (s.drop 4).takeWhile isWordChar
    if run = [] then none else some run
  else none

/-- Model of `re.search(r"ID: (\w+)", footer_text)` followed by `.group(1)` as done
by `on_reaction_add` (secure_discordbot.py lines 1094-1098): the leftmost
match of the pattern, `none` when the pattern does not occur. -/
def reSearchId : Str → Option Str
  | [] => none
  | c :: rest =>
    match matchIdAt (c :: rest) with
    | some r => some r
    | none => reSearchId rest

/-! ## Preference learner — `UserPreferenceLearner.learn_from_reaction`
and its three sub-updates.

The relational store is modelled as finite maps (functions into `Option`),
one per table; a row absent from the map is a row absent from the table.
`INSERT ... ON CONFLICT DO NOTHING` therefore becomes "insert the table
defaults when the key is absent".  SQL `REAL` columns are modelled as
`ℚ`. -/

/-- A row of `user_seller_preferences`; the table defaults
(secure_discordbot.py lines 369-390) are `likes = 0`, `dislikes = 0`,
`trust_score = 0.5`. -/
structure SellerPref where
  likes : ℕ
  dislikes : ℕ
  trust_score : ℚ
deriving DecidableEq

/-- The `user_seller_preferences` row inserted by
`INSERT ... ON CONFLICT DO NOTHING`: the table defaults. -/
def initSellerPref : SellerPref := ⟨0, 0, 1/2⟩

/-- A row of `user_brand_preferences`; the table defaults
(secure_discordbot.py lines 392-416) are `likes = 0`, `dislikes = 0`,
`preference_score = 0.5`, `avg_liked_price = 0`. -/
structure BrandPref where
  likes : ℕ
  dislikes : ℕ
  preference_score : ℚ
  avg_liked_price : ℚ
deriving DecidableEq

/-- The `user_brand_preferences` row inserted by
`INSERT ... ON CONFLICT DO NOTHING`: the table defaults. -/
def initBrandPref : BrandPref := ⟨0, 0, 1/2, 0⟩

/-- A row of `user_item_preferences` (secure_discordbot.py lines 418-440):
`max_price_usd` and `min_quality_score`. -/
structure ItemPref where
  max_price_usd : ℚ
  min_quality_score : ℚ
deriving DecidableEq

/-- The fields of the reaction-time `auction_data` dict read by the
learner (secure_discordbot.py lines 1109-1119). -/
structure AuctionData where
  auction_id : String
  title : Str
  brand : String
  seller_id : String
  price_usd : ℚ
  deal_quality : ℚ

/-- Model of `UserPreferenceLearner._update_seller_preference`
(secure_discordbot.py lines 460-501) acting on the row for
`(user_id, seller_id)`: insert the defaults when absent, increment `likes`
or `dislikes`, then recompute
`trust_score = likes / (likes + dislikes)` (0.5 when the total is 0). -/
def update_seller_preference (row : Option SellerPref) (is_positive : Bool) :
    SellerPref :=
  let r := row.getD initSellerPref
  let r := if is_positive then { r with likes := r.likes + 1 }
           else { r with dislikes := r.dislikes + 1 }
  let total_reactions := r.likes + r.dislikes
  { r with trust_score :=
      if total_reactions > 0 then (r.likes : ℚ) / (total_reactions : ℚ) else 1/2 }

/-- Model of `UserPreferenceLearner._update_brand_preference`
(secure_discordbot.py lines 503-559) acting on the row for
`(user_id, brand)`: insert the defaults when absent, increment `likes` or
`dislikes`, on a like recompute the running mean
`avg_liked_price = (old_avg * (likes - 1) + price) / likes`, then
recompute `preference_score = likes / (likes + dislikes)` (0.5 when the
total is 0). -/
def update_brand_preference (row : Option BrandPref) (is_positive : Bool)
    (price_usd : ℚ) : BrandPref :=
  let r := row.getD initBrandPref
  let r :=
    if is_positive then
      let r := { r with likes := r.likes + 1 }
      let new_avg :=
        if r.likes > 0 then
          (r.avg_liked_price * ((r.likes : ℚ) - 1) + price_usd) / (r.likes : ℚ)
        else price_usd
      { r with avg_liked_price := new_avg }
    else
      { r with dislikes := r.dislikes + 1 }
  let total_reactions := r.likes + r.dislikes
  { r with preference_score :=
      if total_reactions > 0 then (r.likes : ℚ) / (total_reactions : ℚ) else 1/2 }

/-- Model of `UserPreferenceLearner._update_item_preferences`
(secure_discordbot.py lines 561-582): only on a like, upsert the row for
`user_id`, keeping the greatest `max_price_usd` and the least
`min_quality_score` seen. -/
def update_item_preferences (row : Option ItemPref) (price_usd quality : ℚ) :
    ItemPref :=
  match row with
  | none => ⟨price_usd, quality⟩
  | some r => ⟨max r.max_price_usd price_usd, min r.min_quality_score quality⟩

/-- The three preference tables, keyed as in the source. -/
structure LearnerState where
  seller : ℕ → String → Option SellerPref
  brand : ℕ → String → Option BrandPref
  item : ℕ → Option ItemPref

/-- The state with all three tables empty. -/
def emptyLearnerState : LearnerState :=
  ⟨fun _ _ => none, fun _ _ => none, fun _ => none⟩

/-- Update a doubly-keyed table at one key. -/
def upd2 {β : Type} (f : ℕ → String → Option β) (u : ℕ) (k : String) (v : β) :
    ℕ → String → Option β :=
  fun u1 k1 => if u1 = u ∧ k1 = k then some v else f u1 k1

/-- Model of `UserPreferenceLearner.learn_from_reaction(user_id, auction_data,
reaction_type)` (secure_discordbot.py lines 447-458): `is_positive` is
`reaction_type == "thumbs_up"`; the seller, brand and item tables are
each updated at the keys of the reacted auction. -/
def learn_from_reaction (st : LearnerState) (user_id : ℕ) (a : AuctionData)
    (reaction_type : String) : LearnerState :=
  let is_positive := reaction_type = "thumbs_up"
  { seller := upd2 st.seller user_id a.seller_id
      (update_seller_preference (st.seller user_id a.seller_id) is_positive),
    brand := upd2 st.brand user_id a.brand
      (update_brand_preference (st.brand user_id a.brand) is_positive a.price_usd),
    item :=
      if is_positive then
        fun u1 => if u1 = user_id then
          some (update_item_preferences (st.item user_id) a.price_usd a.deal_quality)
        else st.item u1
      else st.item }

/-! ## Multi-channel fan-out — `send_single_listing_enhanced`.

The whole function body is a single `try` block
(secure_discordbot.py lines 932-1009); an exception raised by any
channel send inside it jumps to the `except` handler, which returns
`False`.  The environment records, for each destination, whether its
channel lookup finds a channel and whether its send raises; the result
records the return value and which steps actually ran. -/

/-- The keys of the literal dict `BRAND_CHANNEL_MAP`
(secure_discordbot.py lines 327-351). -/
def BRAND_CHANNEL_MAP_keys : List String :=
  ["Vetements", "Alyx", "Anonymous Club", "Balenciaga", "Bottega Veneta",
   "Celine", "Chrome Hearts", "Comme Des Garcons", "Gosha Rubchinskiy",
   "Helmut Lang", "Hood By Air", "Miu Miu", "Hysteric Glamour",
   "Junya Watanabe", "Kiko Kostadinov", "Maison Margiela", "Martine Rose",
   "Prada", "Raf Simons", "Rick Owens", "Undercover", "Jean Paul Gaultier",
   "Yohji Yamamoto"]

/-- The fields of the listing dict read by `send_single_listing_enhanced`
(secure_discordbot.py lines 934-937). -/
structure FanListing where
  auction_id : String
  title : Str
  brand : String
  price_usd : ℚ
  hasSizes : Bool

/-- The externally determined outcomes of one `send_single_listing_enhanced`
call: whether the auction id is already persisted, which channel lookups
succeed, and which sends raise.  `sizeStepOk` stands for the size-alert
step as a whole not raising (its per-user send has its own internal
`try`/`except`, but the user query can raise). -/
structure FanEnv where
  duplicate : Bool
  mainChannelExists : Bool
  mainSendOk : Bool
  brandChannelExists : Bool
  brandSendOk : Bool
  sizeStepOk : Bool
  budgetChannelExists : Bool
  budgetSendOk : Bool
  hourlyChannelExists : Bool
  hourlySendOk : Bool
deriving DecidableEq

/-- What one `send_single_listing_enhanced` call did: its return value,
whether the main-channel message was sent, whether `add_listing` persisted
the row, and which enrichment destinations were sent. -/
structure FanResult where
  returned : Bool
  mainSent : Bool
  persisted : Bool
  brandSent : Bool
  budgetSent : Bool
  hourlySent : Bool
deriving DecidableEq

/-- Model of `send_single_listing_enhanced(auction_data)`
(secure_discordbot.py lines 932-1009).  Control flow of the source:
return `False` on the spam check or the duplicate check; send to the main
channel when it exists and then persist via `add_listing` (a missing main
channel skips both and continues); then brand channel (when the brand is
in `BRAND_CHANNEL_MAP` and the channel exists), size alerts (when the
listing has sizes), budget channel (when `price_usd <= 100` and the
channel exists), hourly channel; return `True` at the end.  Any raising
send inside the single `try` block aborts the remaining steps and returns
`False` from the `except` handler. -/
def send_single_listing_enhanced (a : FanListing) (env : FanEnv) : FanResult :=
  if is_likely_spam a.title a.brand then
    ⟨false, false, false, false, false, false⟩
  else if env.duplicate then
    ⟨false, false, false, false, false, false⟩
  else if env.mainChannelExists && !env.mainSendOk then
    ⟨false, false, false, false, false, false⟩
  else
    let mainSent := env.mainChannelExists
    let persisted := env.mainChannelExists
    if BRAND_CHANNEL_MAP_keys.contains a.brand && env.brandChannelExists
        && !env.brandSendOk then
      ⟨false, mainSent, persisted, false, false, false⟩
    else
      let brandSent := BRAND_CHANNEL_MAP_keys.contains a.brand && env.brandChannelExists
      if a.hasSizes && !env.sizeStepOk then
        ⟨false, mainSent, persisted, brandSent, false, false⟩
      else if decide (a.price_usd ≤ 100) && env.budgetChannelExists
          && !env.budgetSendOk then
        ⟨false, mainSent, persisted, brandSent, false, false⟩
      else
        let budgetSent := decide (a.price_usd ≤ 100) && env.budgetChannelExists
        if env.hourlyChannelExists && !env.hourlySendOk then
          ⟨false, mainSent, persisted, brandSent, budgetSent, false⟩
        else
          ⟨true, mainSent, persisted, brandSent, budgetSent, env.hourlyChannelExists⟩

/-- Whether any send attempted by `send_single_listing_enhanced` raises in
the given environment (each destination contributes only when its step is
applicable). -/
def fanRaiseAny (a : FanListing) (env : FanEnv) : Bool :=
  (env.mainChannelExists && !env.mainSendOk) ||
  (BRAND_CHANNEL_MAP_keys.contains a.brand && env.brandChannelExists && !env.brandSendOk) ||
  (a.hasSizes && !env.sizeStepOk) ||
  (decide (a.price_usd ≤ 100) && env.budgetChannelExists && !env.budgetSendOk) ||
  (env.hourlyChannelExists && !env.hourlySendOk)

/-! ## Bookmark reminders — `BookmarkReminderSystem`.

`get_pending_reminders` and `mark_reminder_sent` are imported from
`database_manager`, which is not part of the sources; they are modelled
from the spec below. -/

/-- A bookmark row with the reminder flags (spec §3: `(user_id,
auction_id)` pair, a channel locator, `auction_end_time`,
`reminder_1h_sent`, `reminder_5m_sent`).  Times are seconds. -/
structure Bookmark where
  user_id : ℕ
  auction_id : String
  channel_id : ℕ
  end_time : ℕ
  reminder_1h_sent : Bool
  reminder_5m_sent : Bool
deriving DecidableEq

/-- Modelled from the spec: `get_pending_reminders("1h")` of
`database_manager` is not in src/.  Spec §4.6: query the bookmarks whose
`auction_end_time` is between 55 and 65 minutes out and whose
`reminder_1h_sent` is false. -/
def get_pending_reminders_1h (now : ℕ) (bs : List Bookmark) : List Bookmark :=
  bs.filter (fun b =>
    !b.reminder_1h_sent && decide (now + 55 * 60 ≤ b.end_time)
      && decide (b.end_time ≤ now + 65 * 60))

/-- Modelled from the spec: `get_pending_reminders("5m")` of
`database_manager` is not in src/.  Spec §4.6: query the bookmarks whose
`auction_end_time` is between 0 and 10 minutes out and whose
`reminder_5m_sent` is false. -/
def get_pending_reminders_5m (now : ℕ) (bs : List Bookmark) : List Bookmark :=
  bs.filter (fun b =>
    !b.reminder_5m_sent && decide (now ≤ b.end_time)
      && decide (b.end_time ≤ now + 10 * 60))

/-- Modelled from the spec: `mark_reminder_sent(user_id, auction_id,
"1h")` of `database_manager` is not in src/.  It sets `reminder_1h_sent`
on the bookmark row of that `(user_id, auction_id)` pair. -/
def mark_reminder_sent_1h (bs : List Bookmark) (uid : ℕ) (aid : String) :
    List Bookmark :=
  bs.map (fun b =>
    if b.user_id = uid ∧ b.auction_id = aid then
      { b with reminder_1h_sent := true }
    else b)

/-- Modelled from the spec: `mark_reminder_sent(user_id, auction_id,
"5m")` of `database_manager` is not in src/.  It sets `reminder_5m_sent`
on the bookmark row of that `(user_id, auction_id)` pair. -/
def mark_reminder_sent_5m (bs : List Bookmark) (uid : ℕ) (aid : String) :
    List Bookmark :=
  bs.map (fun b =>
    if b.user_id = uid ∧ b.auction_id = aid then
      { b with reminder_5m_sent := true }
    else b)

/-- The externally determined outcomes of one reminder scan: whether
`bot.get_channel` finds the bookmark's channel (a missing channel makes
the loop `continue` without marking), and whether the user fetch and the
reminder send succeed (a raising send is caught per bookmark and the flag
is not set). -/
structure ReminderEnv where
  channelExists : ℕ → Bool
  sendOk : ℕ → String → Bool

/-- Whether the per-bookmark body of a reminder scan runs to completion
for a bookmark: its channel is found and its send does not raise. -/
def reminderDelivered (env : ReminderEnv) (b : Bookmark) : Bool :=
  env.channelExists b.channel_id && env.sendOk b.user_id b.auction_id

/-- Model of `BookmarkReminderSystem.check_1h_reminders`
(secure_discordbot.py lines 38-93): take the pending 1h reminders, and
for each whose channel is found and whose send succeeds, send the warning
and set `reminder_1h_sent`.  Returns the new bookmark table and the
`(user_id, auction_id)` pairs of the reminders actually sent. -/
def check_1h_reminders (env : ReminderEnv) (now : ℕ) (bs : List Bookmark) :
    List Bookmark × List (ℕ × String) :=
  let delivered := (get_pending_reminders_1h now bs).filter (reminderDelivered env)
  (delivered.foldl (fun acc b => mark_reminder_sent_1h acc b.user_id b.auction_id) bs,
   delivered.map (fun b => (b.user_id, b.auction_id)))

/-- Model of `BookmarkReminderSystem.check_5m_reminders`
(secure_discordbot.py lines 95-143), as `check_1h_reminders` but for the
5-minute window and `reminder_5m_sent`. -/
def check_5m_reminders (env : ReminderEnv) (now : ℕ) (bs : List Bookmark) :
    List Bookmark × List (ℕ × String) :=
  let delivered := (get_pending_reminders_5m now bs).filter (reminderDelivered env)
  (delivered.foldl (fun acc b => mark_reminder_sent_5m acc b.user_id b.auction_id) bs,
   delivered.map (fun b => (b.user_id, b.auction_id)))

/-- One iteration of `BookmarkReminderSystem.start_reminder_loop`
(secure_discordbot.py lines 27-36): a 1h scan followed by a 5m scan on
the resulting table. -/
def reminderScan (env : ReminderEnv) (now : ℕ) (bs : List Bookmark) :
    List Bookmark :=
  (check_5m_reminders env now (check_1h_reminders env now bs).1).1

/-- Repeated scheduler scans, one per `(environment, time)` entry. -/
def reminderScans : List (ReminderEnv × ℕ) → List Bookmark → List Bookmark
  | [], bs => bs
  | e :: es, bs => reminderScans es (reminderScan e.1 e.2 bs)

/-! ## Theorems -/

/-- Applying `Char.ofNat` to a valid codepoint round-trips through `toNat`. -/
theorem toNat_ofNat_valid (n : ℕ) (h : n.isValidChar) : (Char.ofNat n).toNat = n := by
  simp [Char.ofNat, h, Char.ofNatAux, Char.toNat, UInt32.toNat]

/-- ASCII case folding is idempotent. -/
theorem toLower_idem (c : Char) : c.toLower.toLower = c.toLower := by
  simp only [Char.toLower]
  by_cases h : c.toNat ≥ 65 ∧ c.toNat ≤ 90
  · rw [if_pos h, toNat_ofNat_valid _ (Or.inl (by omega)), if_neg (by omega)]
  · rw [if_neg h, if_neg h]

/-- Applying `pyReplace` with an empty replacement swallows a leading occurrence of
the pattern. -/
theorem pyReplace_cancel_head (pat s : Str) (hp : pat ≠ []) :
    pyReplace pat [] (pat ++ s) = pyReplace pat [] s := by
  cases pat with
  | nil => exact absurd rfl hp
  | cons c cs =>
    show pyReplace (c :: cs) [] (c :: (cs ++ s)) = _
    rw [pyReplace]
    rw [if_pos ⟨hp, by
      have : (c :: cs) <+: (c :: (cs ++ s)) := ⟨s, by simp⟩
      exact List.isPrefixOf_iff_prefix.mpr this⟩]
    simp [List.drop_left]

/-- Claim C6: `should_delay_listing` returns 0 (Python `False`) for the
pro and elite tiers at every priority; for the free tier it returns the
8-hour base scaled by 0.5 when priority is at least 100, by 0.75 when
priority is in `[70, 100)`, and the unscaled base otherwise; in
particular `delay_for("free", 150) = BASE * 0.5` and
`delay_for("free", 50) = BASE`. -/
theorem C6_theorem (p : ℚ) :
    (should_delay_listing "pro" p).asQ = 0 ∧
    (should_delay_listing "elite" p).asQ = 0 ∧
    (p ≥ 100 → (should_delay_listing "free" p).asQ = FREE_BASE_SECONDS * (1/2)) ∧
    (70 ≤ p ∧ p < 100 →
      (should_delay_listing "free" p).asQ = FREE_BASE_SECONDS * (3/4)) ∧
    (p < 70 → (should_delay_listing "free" p).asQ = FREE_BASE_SECONDS) ∧
    (should_delay_listing "free" 150).asQ = FREE_BASE_SECONDS * (1/2) ∧
    (should_delay_listing "free" 50).asQ = FREE_BASE_SECONDS := by
  refine ⟨rfl, rfl, ?_, ?_, ?_,
    by simp only [should_delay_listing]
       rw [if_neg (by decide), if_pos (by norm_num)]
       norm_num [PyNum.asQ, FREE_BASE_SECONDS, free_delay_multiplier],
    by simp only [should_delay_listing]
       rw [if_neg (by decide), if_neg (by norm_num), if_neg (by norm_num)]
       norm_num [PyNum.asQ, FREE_BASE_SECONDS, free_delay_multiplier]⟩
  · intro h
    simp only [should_delay_listing]
    rw [if_neg (by decide), if_pos h]
    norm_num [PyNum.asQ, FREE_BASE_SECONDS, free_delay_multiplier]
  · rintro ⟨h1, h2⟩
    simp only [should_delay_listing]
    rw [if_neg (by decide), if_neg (by linarith), if_pos h1]
    norm_num [PyNum.asQ, FREE_BASE_SECONDS, free_delay_multiplier]
  · intro h
    simp only [should_delay_listing]
    rw [if_neg (by decide), if_neg (by linarith), if_neg (by linarith)]
    norm_num [PyNum.asQ, FREE_BASE_SECONDS, free_delay_multiplier]

/-- Witness for C6 at priorities 150 and 50. -/
theorem C6_witness :
    (150 : ℚ) ≥ 100 ∧
    (should_delay_listing "free" 150).asQ = FREE_BASE_SECONDS * (1/2) ∧
    (50 : ℚ) < 70 ∧
    (should_delay_listing "free" 50).asQ = FREE_BASE_SECONDS :=
  ⟨by norm_num, (C6_theorem 150).2.2.1 (by norm_num), by norm_num,
    (C6_theorem 50).2.2.2.2.1 (by norm_num)⟩

/-- Claim C9: `generate_proxy_url` is total over arbitrary proxy-service
strings — an unsupported service falls back to the `"zenmarket"`
template — and a leading `"yahoo_"` prefix of the auction id is removed
before substitution into the template. -/
theorem C9_theorem (aid rest : Str) (ps : String) :
    (ps ∉ SUPPORTED_PROXIES_keys →
      generate_proxy_url aid ps = generate_proxy_url aid "zenmarket") ∧
    generate_proxy_url ("yahoo_".toList ++ rest) ps = generate_proxy_url rest ps := by
  constructor
  · intro h
    simp only [generate_proxy_url]
    rw [if_neg h, if_pos (by decide)]
  · simp only [generate_proxy_url]
    rw [pyReplace_cancel_head _ _ (by decide)]

/-- Witness for C9: the unsupported service `"bogus"` falls back to the
zenmarket template, and `"yahoo_v123"` is cleaned to `"v123"`. -/
theorem C9_witness :
    ("bogus" ∉ SUPPORTED_PROXIES_keys) ∧
    generate_proxy_url "v123".toList "bogus" =
      generate_proxy_url "v123".toList "zenmarket" ∧
    generate_proxy_url ("yahoo_".toList ++ "v123".toList) "zenmarket" =
      generate_proxy_url "v123".toList "zenmarket" :=
  ⟨by decide, ( C9_theorem "v123".toList "v123".toList "bogus").1 (by decide),
    ( C9_theorem "v123".toList "v123".toList "zenmarket").2⟩

/-- Counterexample to claim C2: the title `"wallet archive"` contains the
Celine deny term `"wallet"` and the allow keyword `"archive"`, yet
`is_likely_spam` classifies it as spam — the brand deny-list
short-circuits before the allow-list is consulted, so the allow-list does
not override the deny-list. -/
theorem C2_counterexample :
    "wallet" ∈ denyPatterns "Celine" ∧
    containsSub (pyLower "wallet".toList) (pyLower "wallet archive".toList) = true ∧
    "archive" ∈ ARCHIVE_KEYWORDS ∧
    containsSub (pyLower "archive".toList) (pyLower "wallet archive".toList) = true ∧
    is_likely_spam "wallet archive".toList "Celine" = true := by
  decide

/-- Claim C2 as amended: for a brand with a configured deny-list, a title
containing a deny term (case-insensitively) classifies as spam even when
an allow-keyword is also present — the deny-list short-circuits first;
the allow-list overrides only the generic deny set: when no brand deny
term matches, a title containing an allow-keyword classifies as
not-spam. -/
theorem C2_theorem (title : Str) (brand : String) :
    ((denyPatterns brand).any
        (fun p => containsSub (pyLower p.toList) (pyLower title)) = true →
      is_likely_spam title brand = true) ∧
    ((denyPatterns brand).any
        (fun p => containsSub (pyLower p.toList) (pyLower title)) = false →
      ARCHIVE_KEYWORDS.any
        (fun k => containsSub (pyLower k.toList) (pyLower title)) = true →
      is_likely_spam title brand = false) := by
  constructor
  · intro h
    simp only [is_likely_spam]
    rw [if_pos h]
  · intro h1 h2
    simp only [is_likely_spam]
    rw [if_neg (by simp only [h1]; decide), if_pos h2]

/-- Witness for C2: `"wallet bag"` trips the Celine deny-list; the title
`"mainline jacket"` matches no Celine deny term and carries the allow
keyword `"mainline"`, so it passes. -/
theorem C2_witness :
    is_likely_spam "wallet bag".toList "Celine" = true ∧
    is_likely_spam "mainline jacket".toList "Celine" = false :=
  ⟨( C2_theorem "wallet bag".toList "Celine").1 (by decide),
    ( C2_theorem "mainline jacket".toList "Celine").2 (by decide) (by decide)⟩

/-- Counterexample to claim C3: a listing that is neither spam nor a
duplicate, whose main-channel send and persistence succeed, but whose
brand-channel send raises: `send_single_listing_enhanced` returns `false`
(though step 3 succeeded) and the budget and hourly channels are never
attempted — one failing enrichment aborts the rest and marks the listing
undelivered. -/
theorem C3_counterexample :
    send_single_listing_enhanced
        ⟨"x1", "jacket".toList, "Celine", 80, false⟩
        ⟨false, true, true, true, false, true, true, true, true, true⟩ =
      ⟨false, true, true, false, false, false⟩ := by
  decide

/-- Claim C3 as amended: `send_single_listing_enhanced` returns `true`
iff the listing is neither spam nor duplicate and no attempted channel
send raises; a raising send anywhere in the single `try` block makes it
return `false`; the `Listing` row is persisted iff the listing passes the
spam and duplicate checks, the main channel is found and its send
succeeds — in particular a missing main channel skips persistence while
the function can still return `true`. -/
theorem C3_theorem (a : FanListing) (env : FanEnv) :
    (send_single_listing_enhanced a env).returned =
      (!is_likely_spam a.title a.brand && !env.duplicate && !fanRaiseAny a env) ∧
    (send_single_listing_enhanced a env).persisted =
      (!is_likely_spam a.title a.brand && !env.duplicate &&
        env.mainChannelExists && env.mainSendOk) := by
  obtain ⟨dup, mc, ms, bc, bs, sz, buc, bus, hc, hs⟩ := env
  obtain ⟨aid, ti, br, pr, hz⟩ := a
  simp only [send_single_listing_enhanced, fanRaiseAny]
  generalize is_likely_spam ti br = sp
  generalize BRAND_CHANNEL_MAP_keys.contains br = cb
  generalize (decide (pr ≤ 100) : Bool) = pb
  revert sp cb pb dup mc ms bc bs sz buc bus hc hs hz
  decide

/-- The first delivery of a rate-limited batch starts at the start time. -/
theorem sendWithRateLimit_head {α : Type} (t : ℕ) (x : α) (l : List α) :
    (sendWithRateLimit t (x :: l)).head? = some (x, t) := by
  cases l <;> rfl

/-- Consecutive deliveries of `send_individual_listings_with_rate_limit`
are at least 3 seconds apart. -/
theorem sendWithRateLimit_spacing {α : Type} (t : ℕ) (batch : List α) :
    List.Chain' (fun x y => x.2 + 3 ≤ y.2) (sendWithRateLimit t batch) := by
  induction batch generalizing t with
  | nil => simp [sendWithRateLimit]
  | cons x rest ih =>
    cases rest with
    | nil => simp [sendWithRateLimit]
    | cons y rest2 =>
      rw [sendWithRateLimit, List.chain'_cons']
      refine ⟨?_, ih (t + 3)⟩
      intro z hz
      rw [sendWithRateLimit_head] at hz
      simp only [Option.mem_def, Option.some.injEq] at hz
      subst hz
      omega

/-- Claim C4: starting from an empty buffer, 10 rapid submissions
produce exactly 3 flush groups of sizes 4, 4, 2 whose concatenation is
the submissions in FIFO order; every flush removes exactly
`min(queue length, BATCH_SIZE)` items from the queue head; and within a
flushed group consecutive deliveries are at least 3 seconds apart. -/
theorem C4_theorem :
    (((runTicks ((List.range 10).foldl (fun st x => webhookSubmit st x 0)
          ⟨[], none⟩) ((List.range 40).map (· + 1))).2).map List.length
        = [4, 4, 2] ∧
      ((runTicks ((List.range 10).foldl (fun st x => webhookSubmit st x 0)
          ⟨[], none⟩) ((List.range 40).map (· + 1))).2).flatten
        = List.range 10) ∧
    (∀ (st : BatchState ℕ) (now : ℕ) (st1 : BatchState ℕ) (g : List ℕ),
      batchTick st now = (st1, some g) →
      g = st.buffer.take BATCH_SIZE ∧
      st1.buffer = st.buffer.drop BATCH_SIZE ∧
      g.length = min st.buffer.length BATCH_SIZE) ∧
    (∀ (batch : List ℕ) (t : ℕ),
      List.Chain' (fun x y => x.2 + 3 ≤ y.2) (sendWithRateLimit t batch)) := by
  refine ⟨by decide, ?_, fun batch t => sendWithRateLimit_spacing t batch⟩
  intro st now st1 g h
  unfold batchTick at h
  by_cases he : st.buffer.isEmpty
  · rw [if_pos he] at h
    exact absurd (congrArg Prod.snd h) (by simp)
  · rw [if_neg he] at h
    by_cases hc : BATCH_SIZE ≤ st.buffer.length ∨
        BATCH_TIMEOUT ≤ timeSince st.last_batch_time now
    · rw [if_pos hc, Prod.mk.injEq] at h
      obtain ⟨h3, h4⟩ := h
      cases h4
      exact ⟨rfl, by rw [← h3], by rw [List.length_take, Nat.min_comm]⟩
    · rw [if_neg hc] at h
      exact absurd (congrArg Prod.snd h) (by simp)

/-- Witness for C4: a concrete flush of a 5-item queue removes the first
4 items and leaves the fifth. -/
theorem C4_witness :
    [1, 2, 3, 4] = ([1, 2, 3, 4, 5] : List ℕ).take BATCH_SIZE ∧
    ([5] : List ℕ) = ([1, 2, 3, 4, 5] : List ℕ).drop BATCH_SIZE ∧
    ([1, 2, 3, 4] : List ℕ).length = min ([1, 2, 3, 4, 5] : List ℕ).length BATCH_SIZE :=
  C4_theorem.2.1 ⟨[1, 2, 3, 4, 5], some 0⟩ 1 ⟨[5], some 1⟩ [1, 2, 3, 4] (by decide)

/-- The function `takeWhile` stops exactly at the end of a block of satisfying
elements. -/
theorem takeWhile_append_of_all {p : Char → Bool} (l1 l2 : Str)
    (h1 : ∀ c ∈ l1, p c = true) (h2 : ∀ x ∈ l2.head?, p x = false) :
    (l1 ++ l2).takeWhile p = l1 := by
  induction l1 with
  | nil =>
    cases l2 with
    | nil => rfl
    | cons y t =>
      simp only [List.nil_append, List.takeWhile_cons, h2 y rfl]
      simp
  | cons c cs ih =>
    simp only [List.cons_append, List.takeWhile_cons]
    rw [h1 c (by simp)]
    simp only [List.cons.injEq, true_and, if_true]
    exact ih (fun x hx => h1 x (by simp [hx]))

/-- Counterexample to claim C7: the auction id `"ab-cd"` is embedded in
the footer verbatim, but the `ID: (\w+)` parse of `on_reaction_add`
recovers only `"ab"` — the capture group stops at the hyphen, so the
embedding pattern and the parsing pattern do not agree on every auction
id. -/
theorem C7_counterexample :
    reSearchId (footerText "ab-cd".toList) = some "ab".toList ∧
    "ab".toList ≠ "ab-cd".toList := by
  decide

/-- Claim C7 as amended: for every non-empty auction id consisting only
of word characters (ASCII letters, digits, underscore), the `ID: (\w+)`
parse of the footer embedded by `create_listing_embed` recovers exactly
that auction id. -/
theorem C7_theorem (aid : Str) (hne : aid ≠ [])
    (hw : ∀ c ∈ aid, isWordChar c = true) :
    reSearchId (footerText aid) = some aid := by
  have hfoot : footerText aid =
      'I' :: 'D' :: ':' :: ' ' ::
        (aid ++ " | !setup for proxy config | React 👍/👎 to train".toList) := by
    simp [footerText]
  rw [hfoot, reSearchId]
  have hmatch : matchIdAt ('I' :: 'D' :: ':' :: ' ' ::
      (aid ++ " | !setup for proxy config | React 👍/👎 to train".toList)) =
      some aid := by
    unfold matchIdAt
    rw [if_pos (by
      show List.isPrefixOf _ _ = true
      rw [ List.isPrefixOf_iff_prefix]
      exact ⟨aid ++ _, rfl⟩)]
    simp only [List.drop_succ_cons, List.drop_zero]
    rw [takeWhile_append_of_all _ _ hw (by intro x hx; cases hx; rfl)]
    rw [if_neg hne]
  rw [hmatch]

/-- Witness for C7 at the word-character auction id `"x123"`. -/
theorem C7_witness : reSearchId (footerText "x123".toList) = some "x123".toList :=
  C7_theorem "x123".toList (by decide) (by decide)

/-- Looking up the brand row just written by `learn_from_reaction`. -/
theorem learn_brand_lookup (st : LearnerState) (user : ℕ) (a : AuctionData)
    (rt : String) :
    (learn_from_reaction st user a rt).brand user a.brand =
      some (update_brand_preference (st.brand user a.brand)
        (decide (rt = "thumbs_up")) a.price_usd) := by
  simp [learn_from_reaction, upd2]

/-- Counterexample to claim C1: from an empty store, the reaction
sequence like, dislike, like by one user on one auction leaves the
`BrandPreference` row at `likes = 2, dislikes = 1`, not
`likes = 1, dislikes = 0` — `learn_from_reaction` increments the counts
on every reaction event; the delete-then-insert overwrite applies only to
the `Reaction` row, not to the preference counts. -/
theorem C1_counterexample :
    ((learn_from_reaction
        (learn_from_reaction
          (learn_from_reaction emptyLearnerState 1
            ⟨"a1", [], "Celine", "s1", 50, 1/2⟩ "thumbs_up")
          1 ⟨"a1", [], "Celine", "s1", 50, 1/2⟩ "thumbs_down")
        1 ⟨"a1", [], "Celine", "s1", 50, 1/2⟩ "thumbs_up").brand
      1 "Celine").map (fun r => (r.likes, r.dislikes)) = some (2, 1) ∧
    some ((2 : ℕ), (1 : ℕ)) ≠ some ((1 : ℕ), (0 : ℕ)) := by
  constructor
  · rfl
  · decide

/-- Claim C1 as amended: for every user and auction, starting from a
store in which the `(user, brand)` row is absent, the reaction sequence
like, dislike, like leaves the `BrandPreference` row at
`likes = 2, dislikes = 1` — every reaction event increments the counts,
so repeated toggles accumulate instead of reflecting only the most recent
reaction. -/
theorem C1_theorem (st : LearnerState) (user : ℕ) (a : AuctionData)
    (h : st.brand user a.brand = none) :
    ((learn_from_reaction
        (learn_from_reaction
          (learn_from_reaction st user a "thumbs_up")
          user a "thumbs_down")
        user a "thumbs_up").brand user a.brand).map
      (fun r => (r.likes, r.dislikes)) = some (2, 1) := by
  rw [learn_brand_lookup, learn_brand_lookup, learn_brand_lookup, h]
  rfl

/-- Witness for C1: the toggle sequence from the empty store. -/
theorem C1_witness :
    ((learn_from_reaction
        (learn_from_reaction
          (learn_from_reaction emptyLearnerState 2
            ⟨"a2", [], "Prada", "s2", 10, 1/2⟩ "thumbs_up")
          2 ⟨"a2", [], "Prada", "s2", 10, 1/2⟩ "thumbs_down")
        2 ⟨"a2", [], "Prada", "s2", 10, 1/2⟩ "thumbs_up").brand
      2 "Prada").map (fun r => (r.likes, r.dislikes)) = some (2, 1) :=
  C1_theorem emptyLearnerState 2 ⟨"a2", [], "Prada", "s2", 10, 1/2⟩ rfl

/-- The score invariant of a `SellerPreference` row (spec §3). -/
def sellerScoreInv (r : SellerPref) : Prop :=
  0 ≤ r.trust_score ∧ r.trust_score ≤ 1 ∧
  (0 < r.likes + r.dislikes →
    r.trust_score = (r.likes : ℚ) / ((r.likes + r.dislikes : ℕ) : ℚ)) ∧
  (r.likes + r.dislikes = 0 → r.trust_score = 1/2)

/-- The score invariant of a `BrandPreference` row (spec §3). -/
def brandScoreInv (r : BrandPref) : Prop :=
  0 ≤ r.preference_score ∧ r.preference_score ≤ 1 ∧
  (0 < r.likes + r.dislikes →
    r.preference_score = (r.likes : ℚ) / ((r.likes + r.dislikes : ℕ) : ℚ)) ∧
  (r.likes + r.dislikes = 0 → r.preference_score = 1/2)

/-- The score invariant over the whole store. -/
def learnerScoreInv (st : LearnerState) : Prop :=
  (∀ u s r, st.seller u s = some r → sellerScoreInv r) ∧
  (∀ u b r, st.brand u b = some r → brandScoreInv r)

/-- The ratio formula of the recompute steps satisfies the score
invariant. -/
theorem ratio_bounds (likes dislikes : ℕ) :
    0 ≤ (if 0 < likes + dislikes then
      (likes : ℚ) / ((likes + dislikes : ℕ) : ℚ) else 1/2) ∧
    (if 0 < likes + dislikes then
      (likes : ℚ) / ((likes + dislikes : ℕ) : ℚ) else 1/2) ≤ 1 := by
  split_ifs with h
  · have hpos : (0 : ℚ) < ((likes + dislikes : ℕ) : ℚ) := by
      exact_mod_cast h
    constructor
    · positivity
    · rw [div_le_one hpos]
      exact_mod_cast Nat.le_add_right likes dislikes
  · norm_num

/-- Every row written by `_update_seller_preference` satisfies the score
invariant. -/
theorem update_seller_preference_inv (row : Option SellerPref) (pos : Bool) :
    sellerScoreInv (update_seller_preference row pos) := by
  unfold update_seller_preference sellerScoreInv
  cases pos <;>
    simp only [Bool.false_eq_true, if_false, if_true, gt_iff_lt] <;>
    exact ⟨(ratio_bounds _ _).1, (ratio_bounds _ _).2, fun h => by rw [if_pos h],
      fun h => by rw [if_neg (by omega)]⟩

/-- Every row written by `_update_brand_preference` satisfies the score
invariant. -/
theorem update_brand_preference_inv (row : Option BrandPref) (pos : Bool)
    (price : ℚ) :
    brandScoreInv (update_brand_preference row pos price) := by
  unfold update_brand_preference brandScoreInv
  cases pos <;>
    simp only [Bool.false_eq_true, if_false, if_true, gt_iff_lt] <;>
    exact ⟨(ratio_bounds _ _).1, (ratio_bounds _ _).2, fun h => by rw [if_pos h],
      fun h => by rw [if_neg (by omega)]⟩

/-- Claim C5: `learn_from_reaction` preserves the score invariant — after
every preference-learning update, every stored `trust_score` and
`preference_score` lies in `[0, 1]`, equals `likes / (likes + dislikes)`
when `likes + dislikes > 0`, and equals `0.5` when
`likes + dislikes = 0`. -/
theorem C5_theorem (st : LearnerState) (user : ℕ) (a : AuctionData)
    (rt : String) (h : learnerScoreInv st) :
    learnerScoreInv (learn_from_reaction st user a rt) := by
  obtain ⟨hs, hb⟩ := h
  constructor
  · intro u s r hr
    simp only [learn_from_reaction, upd2] at hr
    by_cases hc : u = user ∧ s = a.seller_id
    · rw [if_pos hc] at hr
      cases hr
      exact update_seller_preference_inv _ _
    · rw [if_neg hc] at hr
      exact hs u s r hr
  · intro u b r hr
    simp only [learn_from_reaction, upd2] at hr
    by_cases hc : u = user ∧ b = a.brand
    · rw [if_pos hc] at hr
      cases hr
      exact update_brand_preference_inv _ _ _
    · rw [if_neg hc] at hr
      exact hb u b r hr

/-- Witness for C5: one update from the empty store. -/
theorem C5_witness :
    learnerScoreInv (learn_from_reaction emptyLearnerState 1
      ⟨"a1", [], "Celine", "s1", 50, 1/2⟩ "thumbs_up") :=
  C5_theorem emptyLearnerState 1 ⟨"a1", [], "Celine", "s1", 50, 1/2⟩ "thumbs_up"
    ⟨fun u s r hr => by simp [emptyLearnerState] at hr,
     fun u b r hr => by simp [emptyLearnerState] at hr⟩

/-- The forward order on bookmark rows: identity and window data are
unchanged and the reminder flags only move from unsent to sent. -/
def bookmarkLe (o n : Bookmark) : Prop :=
  o.user_id = n.user_id ∧ o.auction_id = n.auction_id ∧
  o.channel_id = n.channel_id ∧ o.end_time = n.end_time ∧
  (o.reminder_1h_sent = true → n.reminder_1h_sent = true) ∧
  (o.reminder_5m_sent = true → n.reminder_5m_sent = true)

/-- The relation `bookmarkLe` is reflexive. -/
theorem bookmarkLe_refl (b : Bookmark) : bookmarkLe b b :=
  ⟨rfl, rfl, rfl, rfl, id, id⟩

/-- The relation `bookmarkLe` is transitive. -/
theorem bookmarkLe_trans {a b c : Bookmark} (h1 : bookmarkLe a b)
    (h2 : bookmarkLe b c) : bookmarkLe a c :=
  ⟨h1.1.trans h2.1, h1.2.1.trans h2.2.1, h1.2.2.1.trans h2.2.2.1,
    h1.2.2.2.1.trans h2.2.2.2.1, fun h => h2.2.2.2.2.1 (h1.2.2.2.2.1 h),
    fun h => h2.2.2.2.2.2 (h1.2.2.2.2.2 h)⟩

/-- The relation `Forall₂ bookmarkLe` is transitive. -/
theorem forall₂_bookmarkLe_trans :
    ∀ {a b c : List Bookmark}, List.Forall₂ bookmarkLe a b →
      List.Forall₂ bookmarkLe b c → List.Forall₂ bookmarkLe a c := by
  intro a b c h1 h2
  induction h1 generalizing c with
  | nil => cases h2; exact List.Forall₂.nil
  | cons hx hrest ih =>
    cases h2 with
    | cons hy hrest2 => exact List.Forall₂.cons (bookmarkLe_trans hx hy) (ih hrest2)

/-- Marking a 1h reminder as sent only moves flags forward. -/
theorem mark_1h_le (bs : List Bookmark) (uid : ℕ) (aid : String) :
    List.Forall₂ bookmarkLe bs (mark_reminder_sent_1h bs uid aid) := by
  unfold mark_reminder_sent_1h
  rw [List.forall₂_map_right_iff, List.forall₂_same]
  intro b hb
  split_ifs with h
  · exact ⟨rfl, rfl, rfl, rfl, fun _ => rfl, id⟩
  · exact bookmarkLe_refl b

/-- Marking a 5m reminder as sent only moves flags forward. -/
theorem mark_5m_le (bs : List Bookmark) (uid : ℕ) (aid : String) :
    List.Forall₂ bookmarkLe bs (mark_reminder_sent_5m bs uid aid) := by
  unfold mark_reminder_sent_5m
  rw [List.forall₂_map_right_iff, List.forall₂_same]
  intro b hb
  split_ifs with h
  · exact ⟨rfl, rfl, rfl, rfl, id, fun _ => rfl⟩
  · exact bookmarkLe_refl b

/-- Folding 1h marks over any list only moves flags forward. -/
theorem fold_mark_1h_le (ds : List Bookmark) :
    ∀ bs : List Bookmark, List.Forall₂ bookmarkLe bs
      (ds.foldl (fun acc b => mark_reminder_sent_1h acc b.user_id b.auction_id) bs) := by
  induction ds with
  | nil => intro bs; exact List.forall₂_same.mpr (fun b _ => bookmarkLe_refl b)
  | cons d ds ih =>
    intro bs
    exact forall₂_bookmarkLe_trans (mark_1h_le bs d.user_id d.auction_id)
      (ih (mark_reminder_sent_1h bs d.user_id d.auction_id))

/-- Folding 5m marks over any list only moves flags forward. -/
theorem fold_mark_5m_le (ds : List Bookmark) :
    ∀ bs : List Bookmark, List.Forall₂ bookmarkLe bs
      (ds.foldl (fun acc b => mark_reminder_sent_5m acc b.user_id b.auction_id) bs) := by
  induction ds with
  | nil => intro bs; exact List.forall₂_same.mpr (fun b _ => bookmarkLe_refl b)
  | cons d ds ih =>
    intro bs
    exact forall₂_bookmarkLe_trans (mark_5m_le bs d.user_id d.auction_id)
      (ih (mark_reminder_sent_5m bs d.user_id d.auction_id))

/-- One full reminder scan only moves flags forward. -/
theorem reminderScan_le (env : ReminderEnv) (now : ℕ) (bs : List Bookmark) :
    List.Forall₂ bookmarkLe bs (reminderScan env now bs) := by
  unfold reminderScan check_1h_reminders check_5m_reminders
  exact forall₂_bookmarkLe_trans (fold_mark_1h_le _ bs) (fold_mark_5m_le _ _)

/-- Claim C8: (1) every 1-hour reminder a scan sends belongs to a
bookmark whose `reminder_1h_sent` flag was false — once the flag is true
(and the `(user, auction)` key is unique, spec §3 invariant) no
subsequent scan re-sends the 1-hour reminder, even inside the 55-65
minute window; (2) the per-bookmark flags move only forward under any
sequence of scheduler scans, never regressing. -/
theorem C8_theorem :
    (∀ (env : ReminderEnv) (now : ℕ) (bs : List Bookmark) (x : ℕ × String),
      x ∈ (check_1h_reminders env now bs).2 →
      ∃ b ∈ bs, b.reminder_1h_sent = false ∧ x = (b.user_id, b.auction_id)) ∧
    (∀ (env : ReminderEnv) (now : ℕ) (bs : List Bookmark),
      (bs.map (fun b => (b.user_id, b.auction_id))).Nodup →
      ∀ b ∈ bs, b.reminder_1h_sent = true →
      (b.user_id, b.auction_id) ∉ (check_1h_reminders env now bs).2) ∧
    (∀ (scans : List (ReminderEnv × ℕ)) (bs : List Bookmark),
      List.Forall₂ bookmarkLe bs (reminderScans scans bs)) := by
  have part1 : ∀ (env : ReminderEnv) (now : ℕ) (bs : List Bookmark)
      (x : ℕ × String), x ∈ (check_1h_reminders env now bs).2 →
      ∃ b ∈ bs, b.reminder_1h_sent = false ∧ x = (b.user_id, b.auction_id) := by
    intro env now bs x hx
    simp only [check_1h_reminders, List.mem_map] at hx
    obtain ⟨b, hb, rfl⟩ := hx
    rw [List.mem_filter] at hb
    have hb2 := hb.1
    simp only [get_pending_reminders_1h, List.mem_filter, Bool.and_eq_true,
      Bool.not_eq_true'] at hb2
    exact ⟨b, hb2.1, hb2.2.1.1, rfl⟩
  refine ⟨part1, ?_, ?_⟩
  · intro env now bs hnodup b hb hflag hmem
    obtain ⟨b2, hb2, hflag2, hkey⟩ := part1 env now bs _ hmem
    have hbb : b = b2 :=
      List.inj_on_of_nodup_map hnodup hb hb2 (by
        simpa using hkey)
    rw [hbb, hflag2] at hflag
    exact Bool.noConfusion hflag
  · intro scans
    induction scans with
    | nil =>
      intro bs
      exact List.forall₂_same.mpr (fun b _ => bookmarkLe_refl b)
    | cons e es ih =>
      intro bs
      exact forall₂_bookmarkLe_trans (reminderScan_le e.1 e.2 bs)
        (ih (reminderScan e.1 e.2 bs))

/-- Witness for C8: a single bookmark whose 1-hour flag is already set,
sitting inside the 55-65 minute window, is not re-sent by a scan. -/
theorem C8_witness :
    (([⟨1, "a1", 7, 3600, true, false⟩] : List Bookmark).map
      (fun b => (b.user_id, b.auction_id))).Nodup ∧
    (⟨1, "a1", 7, 3600, true, false⟩ : Bookmark) ∈
      ([⟨1, "a1", 7, 3600, true, false⟩] : List Bookmark) ∧
    ((1 : ℕ), "a1") ∉
      (check_1h_reminders ⟨fun _ => true, fun _ _ => true⟩ 0
        [⟨1, "a1", 7, 3600, true, false⟩]).2 :=
  ⟨by decide, by decide,
    C8_theorem.2.1 ⟨fun _ => true, fun _ _ => true⟩ 0
      [⟨1, "a1", 7, 3600, true, false⟩] (by decide)
      ⟨1, "a1", 7, 3600, true, false⟩ (by decide) rfl⟩

/-- A character at codepoint 33 or above is not whitespace. -/
theorem isWhitespace_false_of_ge (d : Char) (hd : 33 ≤ d.toNat) :
    d.isWhitespace = false := by
  have h1 : d ≠ ' ' := fun he => by
    have h := congrArg Char.toNat he
    rw [show (' ').toNat = 32 from rfl] at h
    omega
  have h2 : d ≠ '\t' := fun he => by
    have h := congrArg Char.toNat he
    rw [show ('\t').toNat = 9 from rfl] at h
    omega
  have h3 : d ≠ '\r' := fun he => by
    have h := congrArg Char.toNat he
    rw [show ('\r').toNat = 13 from rfl] at h
    omega
  have h4 : d ≠ '\n' := fun he => by
    have h := congrArg Char.toNat he
    rw [show ('\n').toNat = 10 from rfl] at h
    omega
  simp [Char.isWhitespace, h1, h2, h3, h4]

/-- ASCII case folding does not change whether a character is
whitespace. -/
theorem isPySpace_toLower (c : Char) : isPySpace c.toLower = isPySpace c := by
  unfold isPySpace
  simp only [Char.toLower]
  by_cases h : c.toNat ≥ 65 ∧ c.toNat ≤ 90
  · rw [if_pos h]
    rw [isWhitespace_false_of_ge _
      (by rw [toNat_ofNat_valid _ (Or.inl (by omega))]; omega)]
    rw [isWhitespace_false_of_ge _ (by omega)]
  · rw [if_neg h]

/-- The function `map` commutes with `dropWhile` when the predicate is invariant under
the mapped function. -/
theorem map_dropWhile_comm {f : Char → Char} {p : Char → Bool}
    (hp : ∀ c, p (f c) = p c) (l : Str) :
    (List.dropWhile p l).map f = List.dropWhile p (l.map f) := by
  induction l with
  | nil => rfl
  | cons c t ih =>
    simp only [List.map_cons, List.dropWhile_cons, hp c]
    split_ifs <;> simp [ih]

/-- The function `map` commutes with `rdropWhile` when the predicate is invariant
under the mapped function. -/
theorem map_rdropWhile_comm {f : Char → Char} {p : Char → Bool}
    (hp : ∀ c, p (f c) = p c) (l : Str) :
    (List.rdropWhile p l).map f = List.rdropWhile p (l.map f) := by
  unfold List.rdropWhile
  rw [List.map_reverse, map_dropWhile_comm hp, List.map_reverse]

/-- The function `pyLower` is idempotent. -/
theorem pyLower_idem (s : Str) : pyLower (pyLower s) = pyLower s := by
  unfold pyLower
  induction s with
  | nil => rfl
  | cons c t ih =>
    simp only [List.map_cons, List.cons.injEq]
    exact ⟨toLower_idem c, ih⟩

/-- The function `pyLower` commutes with `pyStrip`. -/
theorem pyLower_pyStrip (s : Str) : pyLower (pyStrip s) = pyStrip (pyLower s) := by
  unfold pyStrip pyLower
  rw [map_rdropWhile_comm isPySpace_toLower, map_dropWhile_comm isPySpace_toLower]

/-- A stripped string has no leading whitespace left. -/
theorem dropWhile_pyStrip (s : Str) :
    List.dropWhile isPySpace (pyStrip s) = pyStrip s := by
  have hm : List.dropWhile isPySpace (List.dropWhile isPySpace s) =
      List.dropWhile isPySpace s := List.dropWhile_idempotent _ _
  have hpre : pyStrip s <+: List.dropWhile isPySpace s :=
    List.rdropWhile_prefix _ _
  cases hn : pyStrip s with
  | nil => rfl
  | cons x t =>
    rw [hn] at hpre
    obtain ⟨rest, hrest⟩ := hpre
    have hx : isPySpace x = false := by
      rw [← hrest] at hm
      cases hx2 : isPySpace x with
      | false => rfl
      | true =>
        rw [List.cons_append, List.dropWhile_cons, hx2, if_pos rfl] at hm
        have hlen := congrArg List.length hm
        have hle := (List.dropWhile_suffix (l := t ++ rest) isPySpace).length_le
        simp only [List.length_cons] at hlen
        omega
    simp [List.dropWhile_cons, hx]

/-- The function `pyStrip` is idempotent. -/
theorem pyStrip_idem (s : Str) : pyStrip (pyStrip s) = pyStrip s := by
  show (List.dropWhile isPySpace (pyStrip s)).rdropWhile isPySpace = pyStrip s
  rw [dropWhile_pyStrip]
  unfold pyStrip
  exact List.rdropWhile_idempotent _ _

/-- The lowercased-and-stripped form is a fixed point of lowercasing and
stripping. -/
theorem pyStrip_pyLower_fixed (s : Str) :
    pyStrip (pyLower (pyStrip (pyLower s))) = pyStrip (pyLower s) := by
  rw [pyLower_pyStrip, pyLower_idem, pyStrip_idem]

/-- The defining equation of `normalize_size`. -/
theorem normalize_size_def (s : Str) :
    normalize_size s =
      match size_mappings.find?
          (fun p => p.2.any (fun v => v.toList = pyStrip (pyLower s))) with
      | some p => p.1.toList
      | none => pyStrip (pyLower s) := rfl

/-- Claim C10: `normalize_size` is idempotent, and its result is always
either one of the canonical codes `"s"`, `"m"`, `"l"`, `"xl"`, `"xxl"`
or the lowercased, whitespace-stripped input passed through unchanged. -/
theorem C10_theorem (s : Str) :
    normalize_size (normalize_size s) = normalize_size s ∧
    (normalize_size s ∈ size_mappings.map (fun p => p.1.toList) ∨
      normalize_size s = pyStrip (pyLower s)) := by
  cases hf : size_mappings.find?
      (fun p => p.2.any (fun v => v.toList = pyStrip (pyLower s))) with
  | some pr =>
    have hres : normalize_size s = pr.1.toList := by
      rw [normalize_size_def, hf]
    have hmem : pr ∈ size_mappings := List.mem_of_find?_eq_some hf
    constructor
    · rw [hres]
      simp only [size_mappings, List.mem_cons, List.not_mem_nil, or_false] at hmem
      rcases hmem with h | h | h | h | h <;> rw [h] <;> decide
    · rw [hres]
      exact Or.inl (List.mem_map_of_mem _ hmem)
  | none =>
    have hres : normalize_size s = pyStrip (pyLower s) := by
      rw [normalize_size_def, hf]
    constructor
    · rw [hres, normalize_size_def, pyStrip_pyLower_fixed, hf]
    · exact Or.inr hres

end DiscordBot
